import Mathlib

/-!
Verification of the RAVEN infrastructure CLI (`cli/raven.py`).

This file gives a shallow embedding of the fleet operations (`manage_tests`,
`pull_repos`, `push_repos`), the process supervisor (`start_car`, `stop_car`),
the serial device resolver (`detect_serial_port`) and the `main` command
dispatch, and proves theorems about per-target isolation, outcome
aggregation, registry lifecycle, detection priority and process exit codes.

External effects (filesystem checks, `subprocess` invocations, `os.kill`)
are abstracted as explicit inputs describing what each call would observe
or return; everything else follows the Python control flow branch by branch.
-/

namespace Raven

/-- Result of one `subprocess.run` call without `check=True`:
either the process completed with a return code and captured output
streams, or invoking it raised an exception carrying a message. -/
inductive ExecResult where
  | ok (returncode : Int) (stdout stderr : String)
  | exn (msg : String)
deriving DecidableEq, Repr

/-- Result of a `subprocess.run(..., check=True)` call whose output streams
are discarded (`DEVNULL`): success, a `CalledProcessError` raised on a
nonzero exit code, or some other exception (e.g. the process could not be
spawned) carrying a message. -/
inductive CheckedResult where
  | ok
  | calledProcessError
  | exn (msg : String)
deriving DecidableEq, Repr

/-- Per-target outcome of one fleet operation, as classified by the
corresponding branch of the Python loop body. -/
inductive Outcome where
  | success
  | failure (detail : String)
  | skipped (reason : String)
  | noChanges
deriving DecidableEq, Repr

def Outcome.isFailure : Outcome → Bool
  | .failure _ => true
  | _ => false

def Outcome.isSuccess : Outcome → Bool
  | .success => true
  | _ => false

def Outcome.isSkipped : Outcome → Bool
  | .skipped _ => true
  | _ => false

def Outcome.isNoChanges : Outcome → Bool
  | .noChanges => true
  | _ => false

/-- Python `needle in hay` substring test. -/
def strContainsSub (hay needle : String) : Bool :=
  let h := hay.toList
  let n := needle.toList
  (List.range (h.length + 1)).any (fun i => n.isPrefixOf (h.drop i))

/-- Split a character list at every character satisfying `p`, keeping empty
pieces (the behavior of Python `str.split(sep)` for a one-character
separator when `p` tests for that separator). -/
def splitOnPred (p : Char → Bool) : List Char → List (List Char)
  | [] => [[]]
  | c :: cs =>
      let r := splitOnPred p cs
      if p c then [] :: r
      else
        match r with
        | [] => [[c]]
        | w :: ws => (c :: w) :: ws

/-- Python `str.split()` with no argument: split on whitespace, dropping
empty tokens, which leaves exactly the maximal non-whitespace runs. -/
def pySplit (s : String) : List String :=
  ((splitOnPred Char.isWhitespace s.toList).map String.mk).filter (fun t => t != "")

/-- Python `str.splitlines()` on newline-separated text: the empty string
gives no lines, and a trailing newline does not produce a trailing empty
line. -/
def pySplitlines (s : String) : List String :=
  if s = "" then []
  else
    let parts := (splitOnPred (fun c => c = '\n') s.toList).map String.mk
    if parts.getLast? = some "" then parts.dropLast else parts

/-- Last `n` elements of a list (Python `xs[-n:]`). -/
def lastLines (n : Nat) (ls : List String) : List String :=
  (ls.reverse.take n).reverse

/-- Join lines with newlines, as the console output of the failure branch
concatenates the printed diagnostic lines. -/
def joinLines (ls : List String) : String :=
  match ls with
  | [] => ""
  | l :: rest => rest.foldl (fun acc x => acc ++ "\n" ++ x) l

/-- First line of a string (Python `s.split(chr(10))[0]`). -/
def firstLine (s : String) : String :=
  String.mk (s.toList.takeWhile (fun c => c != '\n'))

/-- Python `str.strip()`: remove leading and trailing whitespace. -/
def pyStrip (s : String) : String :=
  String.mk (((s.toList.dropWhile Char.isWhitespace).reverse.dropWhile
    Char.isWhitespace).reverse)

/-- Python `int(s)` restricted to the unsigned decimal numerals `str(pid)`
writes into the registry; anything else raises, modelled as `none`. -/
def pyToNat (s : String) : Option Nat :=
  if s.toList ≠ [] && s.toList.all Char.isDigit then
    some (s.toList.foldl (fun n c => n * 10 + (c.toNat - 48)) 0)
  else none

/-! ### Fleet operation: `test` (`manage_tests`) -/

/-- One target of the `test` fleet loop, with the environment facts the
loop body observes: whether `resolve_path` found the repository directory,
whether its configured command type is `"python"` (which triggers the
`tests/` directory pre-check), whether `tests/` exists, and what running
the test command returned. -/
structure TestTarget where
  name : String
  pathExists : Bool
  isPythonType : Bool
  hasTestsDir : Bool
  runRes : ExecResult
deriving DecidableEq, Repr

/-- Diagnostic detail retained for a failing test run: the last 5 lines of
captured stdout followed by all stderr lines. -/
def testFailDetail (out err : String) : String :=
  joinLines (lastLines 5 (pySplitlines out) ++ pySplitlines err)

/-- One iteration of the `manage_tests` loop body: a missing repository
prints a red error and clears `overall_success` (a failure); a `"python"`
target without a `tests/` directory is skipped; otherwise the test command
runs, with exceptions caught and converted to a failure carrying the
exception text. -/
def manage_tests_step (t : TestTarget) : Outcome :=
  if !t.pathExists then .failure "Repo not found locally"
  else if t.isPythonType && !t.hasTestsDir then .skipped "No tests/ directory found. Skipping."
  else
    match t.runRes with
    | .exn m => .failure ("Execution Error: " ++ m)
    | .ok rc out err => if rc = 0 then .success else .failure (testFailDetail out err)

/-- Outcomes of a `manage_tests` fleet run, one per target in input order. -/
def manage_tests_outcomes (ts : List TestTarget) : List Outcome :=
  ts.map manage_tests_step

/-- The `overall_success` flag of `manage_tests`: initialized `True`, set to
`False` by every failure branch of the loop body, read after the loop. -/
def manage_tests_success (ts : List TestTarget) : Bool :=
  ts.foldl (fun ok t => ok && !(manage_tests_step t).isFailure) true

/-- Severity of the final summary line printed by `manage_tests`. -/
def test_summary_level (ts : List TestTarget) : String :=
  if manage_tests_success ts then "SUCCESS" else "ERROR"

/-- The four repositories of the `repos` dict in `manage_tests`, in
insertion order. -/
def knownTestRepos : List String :=
  ["raven-brain-stack", "raven-computer", "raven-sim", "raven-embedded-control"]

/-- Dispatch result of `manage_tests`: the hardware diagnostic branch, the
unknown-repository early return, or a fleet run with its outcomes and
`overall_success` flag. -/
inductive TestsDispatch where
  | hardware
  | unknownRepo (name : String)
  | ran (outcomes : List Outcome) (overall : Bool)
deriving DecidableEq, Repr

/-- Entry logic of `manage_tests`: `repo = "hardware"` runs the hardware
diagnostic; an explicitly requested name outside the `repos` dict logs an
error and returns; otherwise the loop runs over the single requested target
or over all four known targets. `env` supplies the observed facts for each
repository name. -/
def manage_tests (repo : Option String) (env : String → TestTarget) : TestsDispatch :=
  match repo with
  | some r =>
      if r = "hardware" then .hardware
      else if knownTestRepos.contains r then
        .ran (manage_tests_outcomes [env r]) (manage_tests_success [env r])
      else .unknownRepo r
  | none =>
      .ran (manage_tests_outcomes (knownTestRepos.map env))
           (manage_tests_success (knownTestRepos.map env))

/-- The `test` command as dispatched by `main`: `manage_tests` returns
normally on every dispatch path (all loop-body exceptions are caught) and
`main` never calls `sys.exit` on this branch, so the interpreter exit
status is 0. The second component is the process exit code. -/
def raven_test_command (repo : Option String) (env : String → TestTarget) :
    TestsDispatch × Nat :=
  (manage_tests repo env, 0)

/-! ### Fleet operation: `pull` (`pull_repos`) -/

/-- One target of the `pull` fleet loop: whether `resolve_path` found the
directory, whether it contains `.git`, and what `git pull` returned. -/
structure PullTarget where
  name : String
  resolved : Bool
  isGitRepo : Bool
  pullRes : ExecResult
deriving DecidableEq, Repr

/-- Diagnostic detail retained for a failing pull: the stderr lines when
stderr is nonempty, otherwise the stdout lines. -/
def pullFailDetail (out err : String) : String :=
  if err ≠ "" then err else out

/-- One iteration of the `pull_repos` loop body: unresolved target counts
as skipped; a directory without `.git` counts as skipped; otherwise
`git pull` runs, exceptions are caught as a failure with the exception
text, exit code 0 is a success and a nonzero exit a failure. -/
def pull_step (t : PullTarget) : Outcome :=
  if !t.resolved then .skipped "Repository not found"
  else if !t.isGitRepo then .skipped "Not a git repository. Skipping."
  else
    match t.pullRes with
    | .exn m => .failure ("Error: " ++ m)
    | .ok rc out err => if rc = 0 then .success else .failure (pullFailDetail out err)

/-- Outcomes of a `pull_repos` fleet run, one per target in input order. -/
def pull_outcomes (ts : List PullTarget) : List Outcome :=
  ts.map pull_step

/-- Contribution of one outcome to the `(success, fail, skipped)` counters
of `pull_repos`; each loop branch increments exactly the counter matching
the outcome it classifies. -/
def outcomeTally3 (o : Outcome) : Nat × Nat × Nat :=
  match o with
  | .success => (1, 0, 0)
  | .failure _ => (0, 1, 0)
  | .skipped _ => (0, 0, 1)
  | .noChanges => (0, 0, 0)

/-- The `(success_count, fail_count, skipped_count)` totals of
`pull_repos`; the loop accumulates these increments in order, and addition
order does not change the totals. -/
def pull_counts : List PullTarget → Nat × Nat × Nat
  | [] => (0, 0, 0)
  | t :: ts =>
      let d := outcomeTally3 (pull_step t)
      let c := pull_counts ts
      (d.1 + c.1, d.2.1 + c.2.1, d.2.2 + c.2.2)

def pull_success_count (ts : List PullTarget) : Nat := (pull_counts ts).1

def pull_fail_count (ts : List PullTarget) : Nat := (pull_counts ts).2.1

def pull_skipped_count (ts : List PullTarget) : Nat := (pull_counts ts).2.2

/-- Severity of the final summary line of `pull_repos`: `SUCCESS` iff no
target failed, else `WARN` when at least one succeeded, else `ERROR`. -/
def pull_summary_level (ts : List PullTarget) : String :=
  if pull_fail_count ts = 0 then "SUCCESS"
  else if 0 < pull_success_count ts then "WARN" else "ERROR"

/-- The `pull` command as dispatched by `main`: `pull_repos` returns its
counters normally and `main` never calls `sys.exit` on this branch, so the
interpreter exit status is 0. The second component is the process exit
code. -/
def raven_pull_command (ts : List PullTarget) : (Nat × Nat × Nat) × Nat :=
  (pull_counts ts, 0)

/-! ### Fleet operation: `push` (`push_repos`) -/

/-- One target of the `push` fleet loop: resolution and `.git` presence,
then the results the four git invocations would have
(`status --porcelain` captured, `add`/`commit` checked with discarded
output, `push` captured). -/
structure PushTarget where
  name : String
  resolved : Bool
  isGitRepo : Bool
  statusRes : ExecResult
  addRes : CheckedResult
  commitRes : CheckedResult
  pushRes : ExecResult
deriving DecidableEq, Repr

/-- The git subcommands `push_repos` can invoke against one target. -/
inductive GitStep where
  | status
  | add
  | commit
  | push
deriving DecidableEq, Repr

/-- Detail retained for a failed `git push`: first line of stripped stderr
when stderr is nonempty, otherwise a fixed marker. -/
def pushErrDetail (stderr : String) : String :=
  if stderr ≠ "" then firstLine (pyStrip stderr) else "Unknown Error"

/-- One iteration of the `push_repos` loop body together with the list of
git subcommands actually invoked: unresolved or non-git targets are
skipped before any invocation; `git status --porcelain` with empty
(stripped) stdout classifies the no-changes outcome and stops; otherwise
stage, commit and push run in sequence, a `CalledProcessError` from a
checked step is caught as a failure with a generic marker, any other
exception as a failure with the exception text, and a nonzero push exit as
a failure retaining the first stderr line. -/
def push_trace (t : PushTarget) : Outcome × List GitStep :=
  if !t.resolved then (.skipped "Repository not found", [])
  else if !t.isGitRepo then (.skipped "Not a git repository. Skipping.", [])
  else
    match t.statusRes with
    | .exn m => (.failure ("FAILED Error: " ++ m), [.status])
    | .ok _ out _ =>
        if pyStrip out = "" then (.noChanges, [.status])
        else
          match t.addRes with
          | .calledProcessError => (.failure "FAILED (Command Error)", [.status, .add])
          | .exn m => (.failure ("FAILED Error: " ++ m), [.status, .add])
          | .ok =>
              match t.commitRes with
              | .calledProcessError =>
                  (.failure "FAILED (Command Error)", [.status, .add, .commit])
              | .exn m => (.failure ("FAILED Error: " ++ m), [.status, .add, .commit])
              | .ok =>
                  match t.pushRes with
                  | .exn m =>
                      (.failure ("FAILED Error: " ++ m), [.status, .add, .commit, .push])
                  | .ok rc _ err =>
                      if rc = 0 then (.success, [.status, .add, .commit, .push])
                      else (.failure ("FAILED (Push Error): " ++ pushErrDetail err),
                            [.status, .add, .commit, .push])

/-- Outcome classified for one `push` target. -/
def push_step (t : PushTarget) : Outcome :=
  (push_trace t).1

/-- Outcomes of a `push_repos` fleet run, one per target in input order. -/
def push_outcomes (ts : List PushTarget) : List Outcome :=
  ts.map push_step

/-- Contribution of one outcome to the
`(success, no_changes, fail, skipped)` counters of `push_repos`. -/
def outcomeTally4 (o : Outcome) : Nat × Nat × Nat × Nat :=
  match o with
  | .success => (1, 0, 0, 0)
  | .noChanges => (0, 1, 0, 0)
  | .failure _ => (0, 0, 1, 0)
  | .skipped _ => (0, 0, 0, 1)

/-- The `(success_count, no_changes_count, fail_count, skipped_count)`
totals of `push_repos`. -/
def push_counts : List PushTarget → Nat × Nat × Nat × Nat
  | [] => (0, 0, 0, 0)
  | t :: ts =>
      let d := outcomeTally4 (push_step t)
      let c := push_counts ts
      (d.1 + c.1, d.2.1 + c.2.1, d.2.2.1 + c.2.2.1, d.2.2.2 + c.2.2.2)

def push_success_count (ts : List PushTarget) : Nat := (push_counts ts).1

def push_no_changes_count (ts : List PushTarget) : Nat := (push_counts ts).2.1

def push_fail_count (ts : List PushTarget) : Nat := (push_counts ts).2.2.1

def push_skipped_count (ts : List PushTarget) : Nat := (push_counts ts).2.2.2

/-! ### Device resolver (`detect_serial_port`) -/

/-- One serial port as reported by `serial.tools.list_ports.comports()`. -/
structure PortInfo where
  device : String
  description : String
deriving DecidableEq, Repr

/-- The `re.match(r"/dev/ttyACM\d+", device)` test: `re.match` anchors at
the start of the string, so this is "begins with `/dev/ttyACM` followed by
a digit". -/
def ttyACMMatch (device : String) : Bool :=
  let pre := "/dev/ttyACM".toList
  let d := device.toList
  pre.isPrefixOf d &&
    (match d.drop pre.length with
     | [] => false
     | c :: _ => c.isDigit)

/-- Per-port check of `detect_serial_port`, in source order: STM32/NUCLEO
description, then Arduino description or `usbmodem` device substring, then
the ttyACM device pattern; each hit returns that port's device. -/
def portCandidate (p : PortInfo) : Option String :=
  if strContainsSub p.description "STM32" || strContainsSub p.description "NUCLEO" then
    some p.device
  else if strContainsSub p.description "Arduino" || strContainsSub p.device "usbmodem" then
    some p.device
  else if ttyACMMatch p.device then some p.device
  else none

/-- Disjunction of all signatures `detect_serial_port` accepts for a port. -/
def portSigMatch (p : PortInfo) : Bool :=
  (strContainsSub p.description "STM32" || strContainsSub p.description "NUCLEO")
    || (strContainsSub p.description "Arduino" || strContainsSub p.device "usbmodem")
    || ttyACMMatch p.device

/-- Source 1 of `detect_serial_port`: scan the enumerated ports in order and
return the first hit. -/
def nativeScan (ports : List PortInfo) : Option String :=
  ports.findSome? portCandidate

/-- Environment facts for the arduino-cli fallback of `detect_serial_port`:
what `shutil.which("arduino-cli")` answers, whether the fixed fallback
installation paths exist (`/usr/local/bin/arduino-cli` is checked by
`flash_firmware` but not by `detect_serial_port`), and the stdout lines of
`arduino-cli board list` (`none` when invoking it raised, which the source
catches and ignores). -/
structure CliWorld where
  whichArduinoCli : Option String
  homebrewCliExists : Bool
  usrLocalCliExists : Bool
  boardList : Option (List String)
deriving DecidableEq, Repr

/-- Tool location logic of `detect_serial_port`: the search path via
`shutil.which`, then the single fixed fallback `/opt/homebrew/bin/arduino-cli`. -/
def locateArduinoCliForDetect (w : CliWorld) : Option String :=
  match w.whichArduinoCli with
  | some p => some p
  | none => if w.homebrewCliExists then some "/opt/homebrew/bin/arduino-cli" else none

/-- Per-line check of the `board list` output: a line containing
`nanorp2040connect` or `usbmodem` is a candidate and its first
whitespace-delimited token is returned (a qualifying line always has one,
but the source guards `len(parts) > 0` and we keep that guard). -/
def lineCandidate (line : String) : Option String :=
  if strContainsSub line "nanorp2040connect" || strContainsSub line "usbmodem" then
    match pySplit line with
    | [] => none
    | tok :: _ => some tok
  else none

/-- Source 2 of `detect_serial_port`: if the tool is located, scan the
`board list` stdout lines in order for the first candidate; an exception
while running the tool is swallowed. -/
def cliScan (w : CliWorld) : Option String :=
  match locateArduinoCliForDetect w with
  | none => none
  | some _ =>
      match w.boardList with
      | none => none
      | some lines => lines.findSome? lineCandidate

/-- Environment facts for a whole `detect_serial_port` call: whether the
`serial` import succeeded, the enumerated ports, and the arduino-cli
world. -/
structure SerialWorld where
  pyserialAvailable : Bool
  ports : List PortInfo
  cli : CliWorld
deriving DecidableEq, Repr

/-- The full `detect_serial_port`: source 1 (native enumeration, when the
`serial` import succeeded) wins if it finds a port; otherwise the
arduino-cli fallback is consulted; `none` models the final `return None`. -/
def detect_serial_port (w : SerialWorld) : Option String :=
  match (if w.pyserialAvailable then nativeScan w.ports else none) with
  | some d => some d
  | none => cliScan w.cli

/-- Modelled from the spec words of claim C6, for comparison only: the same
resolver but with the external tool located via the search path and then
TWO fixed fallback installation paths (`/opt/homebrew/bin/arduino-cli`,
then `/usr/local/bin/arduino-cli`), as the spec asserts. The source of
`detect_serial_port` checks only the homebrew path. -/
def locateArduinoCliTwoFallbacks (w : CliWorld) : Option String :=
  match w.whichArduinoCli with
  | some p => some p
  | none =>
      if w.homebrewCliExists then some "/opt/homebrew/bin/arduino-cli"
      else if w.usrLocalCliExists then some "/usr/local/bin/arduino-cli"
      else none

/-- Modelled from the spec words of claim C6, for comparison only:
`detect_serial_port` as the claim describes it, with the two-fallback
tool location. -/
def detect_serial_port_twoFallbacks (w : SerialWorld) : Option String :=
  match (if w.pyserialAvailable then nativeScan w.ports else none) with
  | some d => some d
  | none =>
      match locateArduinoCliTwoFallbacks w.cli with
      | none => none
      | some _ =>
          match w.cli.boardList with
          | none => none
          | some lines => lines.findSome? lineCandidate

/-! ### Process supervisor (`start_car`, `stop_car`) -/

/-- Result of one `subprocess.Popen` call: the pid of the spawned process,
or the message of the exception it raised. -/
inductive SpawnResult where
  | ok (pid : Nat)
  | exn (msg : String)
deriving DecidableEq, Repr

/-- Environment facts for one `start_car` call: whether each repository
resolved, whether each entry script exists, and what `subprocess.Popen`
did for each launch. -/
structure StartWorld where
  computerResolved : Bool
  dashScriptExists : Bool
  dashSpawn : SpawnResult
  brainResolved : Bool
  brainScriptExists : Bool
  brainSpawn : SpawnResult
deriving DecidableEq, Repr

/-- Content of the `RUNNING_PROCESSES` dict after the two launch attempts
of `start_car`: `"dashboard"` is inserted when the computer repository
resolved, the dashboard script exists and `Popen` succeeded, then
`"brain"` likewise; a launch exception is caught and only logged. -/
def start_running_processes (w : StartWorld) : List (String × Nat) :=
  (match w.computerResolved, w.dashScriptExists, w.dashSpawn with
   | true, true, .ok pid => [("dashboard", pid)]
   | _, _, _ => []) ++
  (match w.brainResolved, w.brainScriptExists, w.brainSpawn with
   | true, true, .ok pid => [("brain", pid)]
   | _, _, _ => [])

/-- Registry lines written by `start_car`: one `name:pid` line per entry of
`RUNNING_PROCESSES`. -/
def start_registry_lines (w : StartWorld) : List String :=
  (start_running_processes w).map (fun e => e.1 ++ ":" ++ toString e.2)

/-- Filesystem effect of `start_car` on the pid registry
`/tmp/raven_pids.txt`: the file is opened with mode `"w"` (truncating), so
its new content is exactly the `name:pid` lines of this invocation,
whatever the previous file state `prev` was; the first component is the
resulting file content (always present, possibly empty) and the second the
list of pids signalled (`start_car` contains no `os.kill`). -/
def start_car (w : StartWorld) (_prev : Option (List String)) :
    Option (List String) × List Nat :=
  (some (start_registry_lines w), [])

/-- Parse of one registry line in `stop_car`:
`name, pid = line.strip().split(":")` followed by `int(pid)`; a line that
does not split into exactly two parts or whose pid is not numeric raises,
which the per-line handler swallows. -/
def parsePidLine (line : String) : Option (String × Nat) :=
  match (splitOnPred (fun c => c = ':') (pyStrip line).toList).map String.mk with
  | [name, pidStr] =>
      match pyToNat pidStr with
      | some pid => some (name, pid)
      | none => none
  | _ => none

/-- The `stop_car` call over an abstract registry file state: an absent
file is a no-op that only logs; otherwise every line is parsed and
signalled, all per-line exceptions (bad parse or failed `os.kill`) are
swallowed, and the file is removed afterwards. Returns the successfully
stopped `(name, pid)` pairs and the resulting file state. -/
def stop_car (registry : Option (List String)) (killOk : Nat → Bool) :
    List (String × Nat) × Option (List String) :=
  match registry with
  | none => ([], none)
  | some lines =>
      (lines.filterMap (fun line =>
        match parsePidLine line with
        | some (name, pid) => if killOk pid then some (name, pid) else none
        | none => none),
       none)

/-! ### Concrete inputs used by witnesses and counterexamples -/

/-- Test target whose repository directory is missing. -/
def tMissing : TestTarget :=
  { name := "A", pathExists := false, isPythonType := true, hasTestsDir := true,
    runRes := .ok 0 "" "" }

/-- Test target whose test run passes. -/
def tPass : TestTarget :=
  { name := "B", pathExists := true, isPythonType := true, hasTestsDir := true,
    runRes := .ok 0 "" "" }

/-- Test target whose test run exits nonzero. -/
def tFail : TestTarget :=
  { name := "C", pathExists := true, isPythonType := true, hasTestsDir := true,
    runRes := .ok 1 "out" "err" }

/-- Test target whose test command raises on invocation. -/
def tExn : TestTarget :=
  { name := "D", pathExists := true, isPythonType := true, hasTestsDir := true,
    runRes := .exn "boom" }

/-- Test target skipped for lack of a `tests/` directory. -/
def tNoTests : TestTarget :=
  { name := "E", pathExists := true, isPythonType := true, hasTestsDir := false,
    runRes := .ok 0 "" "" }

/-- Environment in which every known repository fails its test run. -/
def envFail : String → TestTarget := fun n =>
  { name := n, pathExists := true, isPythonType := false, hasTestsDir := true,
    runRes := .ok 1 "" "" }

/-- Environment in which every known repository passes its test run. -/
def envAny : String → TestTarget := fun n =>
  { name := n, pathExists := true, isPythonType := false, hasTestsDir := true,
    runRes := .ok 0 "" "" }

/-- Pull target whose repository directory is missing. -/
def pMissing : PullTarget :=
  { name := "A", resolved := false, isGitRepo := true, pullRes := .ok 0 "" "" }

/-- Pull target whose `git pull` succeeds. -/
def pPass : PullTarget :=
  { name := "B", resolved := true, isGitRepo := true,
    pullRes := .ok 0 "Already up to date." "" }

/-- Pull target whose `git pull` exits nonzero. -/
def pFail : PullTarget :=
  { name := "C", resolved := true, isGitRepo := true,
    pullRes := .ok 1 "" "fatal: could not read from remote" }

/-- Pull target whose `git pull` raises on invocation. -/
def pExn : PullTarget :=
  { name := "D", resolved := true, isGitRepo := true, pullRes := .exn "boom" }

/-- Pull target that resolved but is not a git checkout. -/
def pNotGit : PullTarget :=
  { name := "E", resolved := true, isGitRepo := false, pullRes := .ok 0 "" "" }

/-- Push target whose `git status` raises on invocation. -/
def qExn : PushTarget :=
  { name := "F", resolved := true, isGitRepo := true, statusRes := .exn "boom",
    addRes := .ok, commitRes := .ok, pushRes := .ok 0 "" "" }

/-- Push target with no pending changes and deliberately failing later
steps, to show those steps are never reached. -/
def qClean : PushTarget :=
  { name := "G", resolved := true, isGitRepo := true, statusRes := .ok 0 "  \n " "",
    addRes := .calledProcessError, commitRes := .exn "never",
    pushRes := .exn "never" }

/-- World for the C6 counterexample: no native enumeration, `arduino-cli`
absent from the search path and from the homebrew path but present at
`/usr/local/bin/arduino-cli`, and a board listing that would qualify. -/
def c6World : SerialWorld :=
  { pyserialAvailable := false, ports := [],
    cli := { whichArduinoCli := none, homebrewCliExists := false,
             usrLocalCliExists := true,
             boardList := some
               ["/dev/cu.usbmodem14201 Serial Port arduino:mbed_nano:nanorp2040connect"] } }

/-- World in which native enumeration finds a Nucleo port. -/
def wNative : SerialWorld :=
  { pyserialAvailable := true,
    ports := [{ device := "/dev/ttyACM0", description := "STM32 STLink" }],
    cli := { whichArduinoCli := some "/usr/bin/arduino-cli", homebrewCliExists := true,
             usrLocalCliExists := true,
             boardList := some ["/dev/cu.usbmodem99 Serial nanorp2040connect"] } }

/-- Cli world with no way to locate the tool. -/
def cNoTool : CliWorld :=
  { whichArduinoCli := none, homebrewCliExists := false, usrLocalCliExists := false,
    boardList := some ["/dev/cu.usbmodem14201 Serial"] }

/-- A maker-board port, listed before a vendor dev-board port in
`portsMakerFirst`. -/
def arduinoPort : PortInfo :=
  { device := "/dev/cu.usbmodem1101", description := "Arduino Nano RP2040 Connect" }

/-- A vendor dev-board port. -/
def nucleoPort : PortInfo :=
  { device := "/dev/ttyACM3", description := "STM32 STLink NUCLEO-F401RE" }

/-- Start world in which both launches raise. -/
def wStartAllFail : StartWorld :=
  { computerResolved := true, dashScriptExists := true, dashSpawn := .exn "boom",
    brainResolved := true, brainScriptExists := true, brainSpawn := .exn "boom" }

/-- Start world in which both launches succeed. -/
def wStartOk : StartWorld :=
  { computerResolved := true, dashScriptExists := true, dashSpawn := .ok 42,
    brainResolved := true, brainScriptExists := true, brainSpawn := .ok 43 }

/-! ### Helper lemmas -/

/-- Folding a conjunction flag over a list equals the initial flag anded
with `all`. -/
theorem foldl_and_all {α : Type} (p : α → Bool) :
    ∀ (ts : List α) (b : Bool), ts.foldl (fun ok t => ok && p t) b = (b && ts.all p) := by
  intro ts
  induction ts with
  | nil => intro b; simp
  | cons t ts ih =>
      intro b
      simp only [List.foldl_cons, List.all_cons, ih, Bool.and_assoc]

/-- `all` over a mapped list tests the composed predicate. -/
theorem all_map_comp {α β : Type} (f : α → β) (p : β → Bool) :
    ∀ l : List α, (l.map f).all p = l.all (fun a => p (f a)) := by
  intro l
  induction l with
  | nil => rfl
  | cons a l ih => simp [List.all_cons, ih]

/-- A `countP` is zero exactly when no element satisfies the predicate. -/
theorem countP_beq_zero_eq_all_not {α : Type} (p : α → Bool) :
    ∀ l : List α, (l.countP p == 0) = l.all (fun a => !p a) := by
  intro l
  induction l with
  | nil => rfl
  | cons a l ih =>
      rw [List.countP_cons, List.all_cons]
      cases h : p a
      · simpa [h] using ih
      · simp [h]

/-- The per-port if-chain of `detect_serial_port` hits exactly when the
disjunction of its signatures holds, and then yields the port device. -/
theorem portCandidate_eq (p : PortInfo) :
    portCandidate p = if portSigMatch p then some p.device else none := by
  unfold portCandidate portSigMatch
  cases h1 : (strContainsSub p.description "STM32" || strContainsSub p.description "NUCLEO") <;>
    cases h2 : (strContainsSub p.description "Arduino" || strContainsSub p.device "usbmodem") <;>
      cases h3 : ttyACMMatch p.device <;> simp [h1, h2, h3]

/-- The native scan returns the device of the first matching port. -/
theorem nativeScan_eq_find (ports : List PortInfo) :
    nativeScan ports = (ports.find? portSigMatch).map PortInfo.device := by
  induction ports with
  | nil => rfl
  | cons p ps ih =>
      rw [nativeScan, List.findSome?_cons, portCandidate_eq]
      cases h : portSigMatch p
      · simpa [List.find?_cons, h] using ih
      · simp [List.find?_cons, h]

/-- The `fail_count` counter of `pull_repos` counts the Failure outcomes. -/
theorem pull_fail_count_eq_countP (ts : List PullTarget) :
    pull_fail_count ts = (pull_outcomes ts).countP Outcome.isFailure := by
  induction ts with
  | nil => rfl
  | cons t ts ih =>
      rw [pull_fail_count, pull_counts] at *
      rw [pull_outcomes] at *
      rw [List.map_cons, List.countP_cons]
      cases h : pull_step t <;> (simp [outcomeTally3, Outcome.isFailure, h, ih]; try omega)

/-- The four counters of `push_repos` count the respective outcomes. -/
theorem push_counts_eq_countP (ts : List PushTarget) :
    push_counts ts
      = ((push_outcomes ts).countP Outcome.isSuccess,
         (push_outcomes ts).countP Outcome.isNoChanges,
         (push_outcomes ts).countP Outcome.isFailure,
         (push_outcomes ts).countP Outcome.isSkipped) := by
  induction ts with
  | nil => rfl
  | cons t ts ih =>
      rw [push_counts, push_outcomes, List.map_cons]
      rw [push_outcomes] at ih
      rw [List.countP_cons, List.countP_cons, List.countP_cons, List.countP_cons, ih]
      cases h : push_step t <;>
        simp [outcomeTally4, Outcome.isSuccess, Outcome.isNoChanges, Outcome.isFailure,
              Outcome.isSkipped, h] <;> omega

/-! ### Claim theorems -/

/-- C5: after every `stop_car` call, regardless of how many per-entry
termination signals succeeded or failed, the registry file is removed; and
`stop_car` on an absent registry file is a no-op that reports nothing to
stop and does not raise. -/
theorem stop_all_clears_registry :
    (∀ (registry : Option (List String)) (killOk : Nat → Bool),
        (stop_car registry killOk).2 = none)
  ∧ (∀ killOk : Nat → Bool, stop_car none killOk = ([], none)) := by
  constructor
  · intro registry killOk
    cases registry <;> rfl
  · intro killOk
    rfl

/-- C10: `start_car` unconditionally rewrites the registry file: its result
does not depend on the previous file state; afterwards the file holds
exactly one `name:pid` line per process successfully launched in this
invocation (characterized below); no termination signal is sent to any
process; and when no launch succeeded the file is written empty rather
than left absent. -/
theorem start_rewrites_registry :
    (∀ (w : StartWorld) (p p' : Option (List String)), start_car w p = start_car w p')
  ∧ (∀ (w : StartWorld) (p : Option (List String)),
        (start_car w p).1 = some (start_registry_lines w) ∧ (start_car w p).2 = [])
  ∧ (∀ (w : StartWorld) (name : String) (pid : Nat),
        (name, pid) ∈ start_running_processes w ↔
          ((name = "dashboard" ∧ w.computerResolved = true ∧ w.dashScriptExists = true
              ∧ w.dashSpawn = .ok pid)
        ∨ (name = "brain" ∧ w.brainResolved = true ∧ w.brainScriptExists = true
              ∧ w.brainSpawn = .ok pid)))
  ∧ start_car wStartAllFail (some ["dashboard:42", "brain:7"]) = (some [], []) := by
  refine ⟨fun w p p' => rfl, fun w p => ⟨rfl, rfl⟩, ?_, rfl⟩
  intro w name pid
  obtain ⟨cr, dse, ds, br, bse, bs⟩ := w
  cases cr <;> cases dse <;> cases ds <;> cases br <;> cases bse <;> cases bs <;>
    simp [start_running_processes, and_assoc, eq_comm]

/-- Witness for C10: the characterization applied at a concrete world where
the dashboard launch succeeded with pid 42. -/
theorem start_rewrites_registry_witness :
    ("dashboard", 42) ∈ start_running_processes wStartOk :=
  (start_rewrites_registry.2.2.1 wStartOk "dashboard" 42).mpr
    (Or.inl ⟨rfl, rfl, rfl, rfl⟩)

/-- C9: within the native enumeration source, device resolution returns
the device of the first port in enumeration order matching any signature,
with no preference among device families; in particular a maker-board port
earlier in the enumeration wins over a vendor dev-board port later in
it. -/
theorem native_scan_first_match :
    (∀ ports : List PortInfo,
        nativeScan ports = (ports.find? portSigMatch).map PortInfo.device)
  ∧ nativeScan [arduinoPort, nucleoPort] = some "/dev/cu.usbmodem1101"
  ∧ detect_serial_port
      { pyserialAvailable := true, ports := [arduinoPort, nucleoPort], cli := cNoTool }
      = some "/dev/cu.usbmodem1101" :=
  ⟨nativeScan_eq_find, by decide, by decide⟩

/-- C1: in every fleet run (test, pull, push), an exception raised while
executing one target's unit of work is caught, that target is classified as
Failure with the exception text as its diagnostic detail, and every
remaining target is still processed exactly as it would be alone; no
per-target exception escapes the loop. -/
theorem fleet_exception_isolation :
    (∀ (pre post : List TestTarget) (t : TestTarget) (m : String),
        t.runRes = .exn m → t.pathExists = true →
        (t.isPythonType && !t.hasTestsDir) = false →
        manage_tests_outcomes (pre ++ t :: post)
          = manage_tests_outcomes pre
            ++ Outcome.failure ("Execution Error: " ++ m) :: manage_tests_outcomes post)
  ∧ (∀ (pre post : List PullTarget) (t : PullTarget) (m : String),
        t.resolved = true → t.isGitRepo = true → t.pullRes = .exn m →
        pull_outcomes (pre ++ t :: post)
          = pull_outcomes pre ++ Outcome.failure ("Error: " ++ m) :: pull_outcomes post)
  ∧ (∀ (pre post : List PushTarget) (t : PushTarget) (m : String),
        t.resolved = true → t.isGitRepo = true → t.statusRes = .exn m →
        push_outcomes (pre ++ t :: post)
          = push_outcomes pre
            ++ Outcome.failure ("FAILED Error: " ++ m) :: push_outcomes post) := by
  refine ⟨?_, ?_, ?_⟩
  · intro pre post t m hrun hpath hskip
    simp [manage_tests_outcomes, manage_tests_step, hrun, hpath, hskip]
  · intro pre post t m hres hgit hpull
    simp [pull_outcomes, pull_step, hres, hgit, hpull]
  · intro pre post t m hres hgit hstatus
    simp [push_outcomes, push_step, push_trace, hres, hgit, hstatus]

/-- Witness for C1: concrete runs of each operation with one target whose
unit of work raises, surrounded by ordinary targets. -/
theorem fleet_exception_isolation_witness :
    (manage_tests_outcomes ([tPass] ++ tExn :: [tFail])
      = manage_tests_outcomes [tPass]
        ++ Outcome.failure ("Execution Error: " ++ "boom") :: manage_tests_outcomes [tFail])
  ∧ (pull_outcomes ([pPass] ++ pExn :: [pFail])
      = pull_outcomes [pPass]
        ++ Outcome.failure ("Error: " ++ "boom") :: pull_outcomes [pFail])
  ∧ (push_outcomes ([] ++ qExn :: [])
      = push_outcomes [] ++ Outcome.failure ("FAILED Error: " ++ "boom") :: push_outcomes []) :=
  ⟨fleet_exception_isolation.1 [tPass] [tFail] tExn "boom" rfl rfl rfl,
   fleet_exception_isolation.2.1 [pPass] [pFail] pExn "boom" rfl rfl rfl,
   fleet_exception_isolation.2.2 [] [] qExn "boom" rfl rfl rfl⟩

/-- Counterexample to C2 as stated: in the `test` fleet run the target list
[A(missing), B(passes), C(fails)] yields [Failure, Success, Failure] —
the missing target is classified as a Failure (clearing the aggregate
flag), not as Skipped. -/
theorem missing_target_skipped_counterexample :
    manage_tests_outcomes [tMissing, tPass, tFail]
      = [Outcome.failure "Repo not found locally", Outcome.success,
         Outcome.failure "out\nerr"]
  ∧ Outcome.isSkipped (Outcome.failure "Repo not found locally") = false
  ∧ manage_tests_success [tMissing, tPass, tFail] = false := by
  refine ⟨by decide, rfl, by decide⟩

/-- C2 as amended: a target whose repository directory does not resolve
never affects any other target's outcome in any fleet run, but its own
classification differs by operation: `pull` (and `push`) classify it as
Skipped, while `test` classifies it as a Failure that clears the aggregate
flag. For pull, [A(missing), B(passes), C(fails)] gives
[Skipped, Success, Failure] with one failure counted and a non-SUCCESS
summary. -/
theorem missing_target_isolation :
    (∀ (pre post : List TestTarget) (t : TestTarget), t.pathExists = false →
        manage_tests_outcomes (pre ++ t :: post)
          = manage_tests_outcomes pre
            ++ Outcome.failure "Repo not found locally" :: manage_tests_outcomes post)
  ∧ (∀ (pre post : List PullTarget) (t : PullTarget), t.resolved = false →
        pull_outcomes (pre ++ t :: post)
          = pull_outcomes pre
            ++ Outcome.skipped "Repository not found" :: pull_outcomes post)
  ∧ (∀ (pre post : List PushTarget) (t : PushTarget), t.resolved = false →
        push_outcomes (pre ++ t :: post)
          = push_outcomes pre
            ++ Outcome.skipped "Repository not found" :: push_outcomes post)
  ∧ pull_outcomes [pMissing, pPass, pFail]
      = [Outcome.skipped "Repository not found", Outcome.success,
         Outcome.failure "fatal: could not read from remote"]
  ∧ pull_fail_count [pMissing, pPass, pFail] = 1
  ∧ (pull_summary_level [pMissing, pPass, pFail] == "SUCCESS") = false := by
  refine ⟨?_, ?_, ?_, by decide, by decide, by decide⟩
  · intro pre post t h
    simp [manage_tests_outcomes, manage_tests_step, h]
  · intro pre post t h
    simp [pull_outcomes, pull_step, h]
  · intro pre post t h
    simp [push_outcomes, push_step, push_trace, h]

/-- Witness for C2 (amended): concrete three-target runs containing a
missing target. -/
theorem missing_target_isolation_witness :
    (manage_tests_outcomes ([tPass] ++ tMissing :: [tFail])
      = manage_tests_outcomes [tPass]
        ++ Outcome.failure "Repo not found locally" :: manage_tests_outcomes [tFail])
  ∧ (pull_outcomes ([] ++ pMissing :: [pPass, pFail])
      = pull_outcomes []
        ++ Outcome.skipped "Repository not found" :: pull_outcomes [pPass, pFail])
  ∧ (push_outcomes ([] ++
        ({ name := "H", resolved := false, isGitRepo := true, statusRes := .ok 0 "" "",
           addRes := .ok, commitRes := .ok, pushRes := .ok 0 "" "" } : PushTarget) :: [])
      = push_outcomes []
        ++ Outcome.skipped "Repository not found" :: push_outcomes []) :=
  ⟨missing_target_isolation.1 [tPass] [tFail] tMissing rfl,
   missing_target_isolation.2.1 [] [pPass, pFail] pMissing rfl,
   missing_target_isolation.2.2.1 [] []
     { name := "H", resolved := false, isGitRepo := true, statusRes := .ok 0 "" "",
       addRes := .ok, commitRes := .ok, pushRes := .ok 0 "" "" } rfl⟩

/-- C4: in every fleet run the aggregate success flag is true exactly when
the count of Failure outcomes is zero, independently of the Skipped count;
an all-Skipped run yields aggregate success. -/
theorem aggregate_success_iff_zero_failures :
    (∀ ts : List TestTarget,
        manage_tests_success ts
          = ((manage_tests_outcomes ts).countP Outcome.isFailure == 0))
  ∧ (∀ ts : List PullTarget,
        (pull_summary_level ts == "SUCCESS")
          = ((pull_outcomes ts).countP Outcome.isFailure == 0))
  ∧ manage_tests_success [tNoTests, tNoTests] = true
  ∧ pull_summary_level [pMissing, pNotGit] = "SUCCESS" := by
  refine ⟨?_, ?_, by decide, by decide⟩
  · intro ts
    simp only [manage_tests_success, manage_tests_outcomes]
    rw [foldl_and_all, Bool.true_and, countP_beq_zero_eq_all_not, all_map_comp]
  · intro ts
    have h := pull_fail_count_eq_countP ts
    rw [← h]
    simp only [pull_summary_level]
    by_cases hz : pull_fail_count ts = 0
    · rw [if_pos hz, hz]
      rfl
    · rw [if_neg hz]
      cases hn : pull_fail_count ts with
      | zero => exact absurd hn hz
      | succ k =>
          by_cases hs : 0 < pull_success_count ts
          · rw [if_pos hs]
            rfl
          · rw [if_neg hs]
            rfl

/-- Counterexample to C3 as stated: a `test` run in which every known
repository fails has aggregate success false, and a `pull` run with one
failing target has a nonzero failure count, yet both commands leave the
process exit code 0 (`main` never calls `sys.exit` on these branches). -/
theorem exit_zero_despite_failure_counterexample :
    (raven_test_command none envFail).2 = 0
  ∧ (raven_test_command none envFail).1
      = TestsDispatch.ran
          [Outcome.failure "", Outcome.failure "", Outcome.failure "", Outcome.failure ""]
          false
  ∧ (raven_pull_command [pFail]).2 = 0
  ∧ pull_fail_count [pFail] = 1 :=
  ⟨rfl, by decide, rfl, by decide⟩

/-- C3 as amended: the `test` and `pull` commands always exit with process
status 0, whatever the per-target outcomes; the aggregate result is
reflected only in the severity of the final summary line, which is
`SUCCESS` exactly when the aggregate succeeds (test) or when no target
failed (pull). -/
theorem test_pull_exit_always_zero :
    (∀ (repo : Option String) (env : String → TestTarget),
        (raven_test_command repo env).2 = 0)
  ∧ (∀ ts : List PullTarget, (raven_pull_command ts).2 = 0)
  ∧ (∀ ts : List TestTarget,
        (test_summary_level ts == "SUCCESS") = manage_tests_success ts)
  ∧ (∀ ts : List PullTarget,
        (pull_summary_level ts == "SUCCESS") = (pull_fail_count ts == 0)) := by
  refine ⟨fun repo env => rfl, fun ts => rfl, ?_, ?_⟩
  · intro ts
    simp only [test_summary_level]
    cases h : manage_tests_success ts <;> rfl
  · intro ts
    simp only [pull_summary_level]
    by_cases hz : pull_fail_count ts = 0
    · rw [if_pos hz, hz]
      rfl
    · have hr : (pull_fail_count ts == 0) = false := by
        cases hn : pull_fail_count ts with
        | zero => exact absurd hn hz
        | succ k => rfl
      rw [if_neg hz, hr]
      by_cases hs : 0 < pull_success_count ts
      · rw [if_pos hs]
        rfl
      · rw [if_neg hs]
        rfl

/-- Counterexample to C6 as stated: with no native source, `arduino-cli`
absent from the search path and from `/opt/homebrew/bin` but present at
`/usr/local/bin`, and a qualifying board listing, the source resolver
returns NotFound while the two-fallback resolver of the claim would return
the board; `detect_serial_port` consults only one fixed fallback path. -/
theorem detect_two_fallbacks_counterexample :
    detect_serial_port c6World = none
  ∧ detect_serial_port_twoFallbacks c6World = some "/dev/cu.usbmodem14201" :=
  ⟨rfl, by decide⟩

/-- C6 as amended: device resolution tries the native enumeration first and
returns its match when one exists; the external board-listing tool is
consulted only when the native source is unavailable or finds no
candidate; the tool is located via the executable search path and then ONE
fixed fallback installation path (`/opt/homebrew/bin/arduino-cli` — the
`/usr/local/bin` path is never consulted here); a qualifying output line
yields its first whitespace-delimited token; and when no source yields a
candidate, resolution returns NotFound. -/
theorem detect_priority_single_fallback :
    (∀ (w : SerialWorld) (d : String),
        w.pyserialAvailable = true → nativeScan w.ports = some d →
        detect_serial_port w = some d)
  ∧ (∀ w : SerialWorld, w.pyserialAvailable = false →
        detect_serial_port w = cliScan w.cli)
  ∧ (∀ w : SerialWorld, nativeScan w.ports = none →
        detect_serial_port w = cliScan w.cli)
  ∧ (∀ (c : CliWorld) (p : String), c.whichArduinoCli = some p →
        locateArduinoCliForDetect c = some p)
  ∧ (∀ c : CliWorld, c.whichArduinoCli = none → c.homebrewCliExists = true →
        locateArduinoCliForDetect c = some "/opt/homebrew/bin/arduino-cli")
  ∧ (∀ c : CliWorld, c.whichArduinoCli = none → c.homebrewCliExists = false →
        cliScan c = none)
  ∧ (∀ (c : CliWorld) (b : Bool),
        cliScan { c with usrLocalCliExists := b } = cliScan c)
  ∧ (∀ (line tok : String) (rest : List String),
        pySplit line = tok :: rest →
        (strContainsSub line "nanorp2040connect" || strContainsSub line "usbmodem") = true →
        lineCandidate line = some tok) := by
  refine ⟨?_, ?_, ?_, ?_, ?_, ?_, fun c b => rfl, ?_⟩
  · intro w d h1 h2
    simp [detect_serial_port, h1, h2]
  · intro w h
    simp [detect_serial_port, h]
  · intro w h
    cases hp : w.pyserialAvailable <;> simp [detect_serial_port, hp, h]
  · intro c p h
    simp [locateArduinoCliForDetect, h]
  · intro c h1 h2
    simp [locateArduinoCliForDetect, h1, h2]
  · intro c h1 h2
    simp [cliScan, locateArduinoCliForDetect, h1, h2]
  · intro line tok rest hs hc
    simp [lineCandidate, hc, hs]

/-- Witness for C6 (amended): the native match wins in a world where both
sources would find a board; a world with no way to locate the tool yields
nothing from source 2; a concrete board-list line yields its first
token. -/
theorem detect_priority_single_fallback_witness :
    detect_serial_port wNative = some "/dev/ttyACM0"
  ∧ cliScan cNoTool = none
  ∧ lineCandidate "/dev/cu.usbmodem14201 Serial Port arduino:mbed_nano:nanorp2040connect"
      = some "/dev/cu.usbmodem14201" :=
  ⟨detect_priority_single_fallback.1 wNative "/dev/ttyACM0" rfl (by decide),
   detect_priority_single_fallback.2.2.2.2.2.1 cNoTool rfl rfl,
   detect_priority_single_fallback.2.2.2.2.2.2.2
     "/dev/cu.usbmodem14201 Serial Port arduino:mbed_nano:nanorp2040connect"
     "/dev/cu.usbmodem14201"
     ["Serial", "Port", "arduino:mbed_nano:nanorp2040connect"]
     (by decide) (by decide)⟩

/-- C7: a `push` target whose `git status --porcelain` output is blank is
classified as the distinct no-changes outcome with only the status command
invoked — stage, commit and push are never run, whatever they would have
returned — and the no-changes outcomes are counted by their own counter,
separately from Success, Failure and Skipped. -/
theorem push_no_changes_precheck :
    (∀ (name : String) (rc : Int) (st err : String) (a c : CheckedResult) (p : ExecResult),
        pyStrip st = "" →
        push_trace { name := name, resolved := true, isGitRepo := true,
                     statusRes := .ok rc st err, addRes := a, commitRes := c, pushRes := p }
          = (Outcome.noChanges, [GitStep.status]))
  ∧ (∀ ts : List PushTarget,
        push_counts ts
          = ((push_outcomes ts).countP Outcome.isSuccess,
             (push_outcomes ts).countP Outcome.isNoChanges,
             (push_outcomes ts).countP Outcome.isFailure,
             (push_outcomes ts).countP Outcome.isSkipped))
  ∧ Outcome.isSuccess Outcome.noChanges = false
  ∧ Outcome.isFailure Outcome.noChanges = false
  ∧ Outcome.isSkipped Outcome.noChanges = false := by
  refine ⟨?_, push_counts_eq_countP, rfl, rfl, rfl⟩
  intro name rc st err a c p h
  simp [push_trace, h]

/-- Witness for C7: a concrete clean target whose later git steps are set
to fail is still classified no-changes with only `status` invoked. -/
theorem push_no_changes_precheck_witness :
    push_trace qClean = (Outcome.noChanges, [GitStep.status]) :=
  push_no_changes_precheck.1 "G" 0 "  \n " "" .calledProcessError (.exn "never")
    (.exn "never") (by decide)

/-- Counterexample to C8 as stated: explicitly requesting the unknown
target `raven-bogus` makes `manage_tests` report the error and return
without attempting any target, but the process exit code is 0, not
nonzero. -/
theorem unknown_target_exit_counterexample :
    (raven_test_command (some "raven-bogus") envAny).1
      = TestsDispatch.unknownRepo "raven-bogus"
  ∧ (raven_test_command (some "raven-bogus") envAny).2 = 0 :=
  ⟨by decide, rfl⟩

/-- C8 as amended: when the user explicitly requests a target name outside
the known target set, the invocation stops immediately — the error is
reported and no target is attempted — but the process exit code is 0, not
nonzero. -/
theorem unknown_target_reported_exit_zero :
    ∀ (r : String) (env : String → TestTarget),
      r ≠ "hardware" → knownTestRepos.contains r = false →
      (raven_test_command (some r) env).1 = TestsDispatch.unknownRepo r
      ∧ (raven_test_command (some r) env).2 = 0 := by
  intro r env h1 h2
  refine ⟨?_, rfl⟩
  have h2m : r ∉ knownTestRepos := by simpa using h2
  simp [raven_test_command, manage_tests, h1, h2m]

/-- Witness for C8 (amended): the unknown name `raven-bogus` under the
all-failing environment. -/
theorem unknown_target_reported_exit_zero_witness :
    (raven_test_command (some "raven-bogus") envFail).1
      = TestsDispatch.unknownRepo "raven-bogus"
    ∧ (raven_test_command (some "raven-bogus") envFail).2 = 0 :=
  unknown_target_reported_exit_zero "raven-bogus" envFail (by decide) (by decide)

end Raven
